import Mathlib

set_option maxRecDepth 2000

/-!
Shallow embedding of the virtee/sev core: the SEV launch-session state
machine (src/session/mod.rs) and the SNP attestation-report types and
verification (src/firmware/guest/types/snp.rs).

Bytes are modelled as natural numbers below 256 inside lists; machine
integers u32/u64 are natural numbers reduced modulo 2^32 / 2^64 where the
code can overflow.  External cryptographic primitives (HMAC-SHA-256,
SHA-256/384, the AES block function behind CTR mode, ECDSA P-384) are
taken as abstract function parameters: the development proves how the
code composes them, never facts about the primitives themselves.
-/

namespace Sev

/-- Little-endian byte encoding of a natural number into `n` bytes,
mirroring bincode's fixed-width integer encoding used by serde on the
bit-packed records and the report scalars. -/
def natToLE : Nat → Nat → List Nat
  | 0, _ => []
  | n + 1, v => v % 256 :: natToLE n (v / 256)

/-- Little-endian decoding of a byte list back into a natural number,
mirroring bincode's fixed-width integer decoding. -/
def leToNat : List Nat → Nat
  | [] => 0
  | b :: bs => b + 256 * leToNat bs

theorem length_natToLE (n v : Nat) : (natToLE n v).length = n := by
  induction n generalizing v with
  | zero => rfl
  | succ n ih => simp [natToLE, ih]

theorem leToNat_natToLE (n v : Nat) (h : v < 256 ^ n) :
    leToNat (natToLE n v) = v := by
  induction n generalizing v with
  | zero => simp at h; simp [natToLE, leToNat, h]
  | succ n ih =>
      have hdiv : v / 256 < 256 ^ n := by
        rw [Nat.div_lt_iff_lt_mul (by norm_num : 0 < 256)]
        calc v < 256 ^ (n + 1) := h
          _ = 256 ^ n * 256 := by ring
      simp [natToLE, leToNat, ih (v / 256) hdiv]
      omega

/-- Serialization of the 4-byte wire form of a u32 (bincode, little-endian). -/
def u32le (v : Nat) : List Nat := natToLE 4 v

/-- Serialization of the 8-byte wire form of a u64 (bincode, little-endian). -/
def u64le (v : Nat) : List Nat := natToLE 8 v

/-! ## Bit-packed records (src/firmware/guest/types/snp.rs)

The `bitfield!` macro generates, for a declaration `get_f, set_f: msb, lsb`,
a getter that shifts right by `lsb` and masks to `msb - lsb + 1` bits, and a
setter that clears exactly those bits and ors in the masked value.  Both
records involved in the claims wrap a `u64`. -/

/-- Reads the bit range starting at `lsb` of width `w` from a 64-bit value,
as the bitfield crate's generated getter does: shift right then mask. -/
def getBits (x lsb w : Nat) : Nat := (x >>> lsb) &&& (2 ^ w - 1)

/-- Writes the bit range starting at `lsb` of width `w` of a 64-bit value,
as the bitfield crate's generated setter does: clear the range with the
complemented mask (complement taken within 64 bits, as on a u64), then or
in the masked new value. -/
def setBits (x lsb w v : Nat) : Nat :=
  (x &&& ((2 ^ 64 - 1) ^^^ ((2 ^ w - 1) <<< lsb))) ||| ((v &&& (2 ^ w - 1)) <<< lsb)

/-- GuestPolicy: bit-packed u64 guest policy record.  Named bit ranges
(lsb, width): abi_minor (0,8), abi_major (8,8), smt_allowed (16,1),
migrate_ma_allowed (18,1), debug_allowed (19,1), single_socket_required
(20,1), cxl_allowed (21,1), mem_aes_256_xts (22,1), rapl_dis (23,1),
ciphertext_hiding (24,1); bit 17 and bits 25..63 are reserved. -/
structure GuestPolicy where
  val : Nat
  deriving Repr, DecidableEq

/-- PlatformInfo: bit-packed u64 platform information record; bits 0..4
are named, bits 5..63 reserved. -/
structure PlatformInfo where
  val : Nat
  deriving Repr, DecidableEq

/-- KeyInfo: bit-packed u32 signing-key information record; bits 0..4 are
named, bits 5..31 reserved. -/
structure KeyInfo where
  val : Nat
  deriving Repr, DecidableEq

/-- GuestFieldSelect: bit-packed u64 derived-key field-select record; bits
0..5 are named, bits 6..63 reserved. -/
structure GuestFieldSelect where
  val : Nat
  deriving Repr, DecidableEq

namespace GuestPolicy

def abi_minor (p : GuestPolicy) : Nat := getBits p.val 0 8
def set_abi_minor (p : GuestPolicy) (v : Nat) : GuestPolicy := ⟨setBits p.val 0 8 v⟩
def abi_major (p : GuestPolicy) : Nat := getBits p.val 8 8
def set_abi_major (p : GuestPolicy) (v : Nat) : GuestPolicy := ⟨setBits p.val 8 8 v⟩
def smt_allowed (p : GuestPolicy) : Nat := getBits p.val 16 1
def set_smt_allowed (p : GuestPolicy) (v : Nat) : GuestPolicy := ⟨setBits p.val 16 1 v⟩
def migrate_ma_allowed (p : GuestPolicy) : Nat := getBits p.val 18 1
def set_migrate_ma_allowed (p : GuestPolicy) (v : Nat) : GuestPolicy := ⟨setBits p.val 18 1 v⟩
def debug_allowed (p : GuestPolicy) : Nat := getBits p.val 19 1
def set_debug_allowed (p : GuestPolicy) (v : Nat) : GuestPolicy := ⟨setBits p.val 19 1 v⟩
def single_socket_required (p : GuestPolicy) : Nat := getBits p.val 20 1
def set_single_socket_required (p : GuestPolicy) (v : Nat) : GuestPolicy := ⟨setBits p.val 20 1 v⟩
def cxl_allowed (p : GuestPolicy) : Nat := getBits p.val 21 1
def set_cxl_allowed (p : GuestPolicy) (v : Nat) : GuestPolicy := ⟨setBits p.val 21 1 v⟩
def mem_aes_256_xts (p : GuestPolicy) : Nat := getBits p.val 22 1
def set_mem_aes_256_xts (p : GuestPolicy) (v : Nat) : GuestPolicy := ⟨setBits p.val 22 1 v⟩
def rapl_dis (p : GuestPolicy) : Nat := getBits p.val 23 1
def set_rapl_dis (p : GuestPolicy) (v : Nat) : GuestPolicy := ⟨setBits p.val 23 1 v⟩
def ciphertext_hiding (p : GuestPolicy) : Nat := getBits p.val 24 1
def set_ciphertext_hiding (p : GuestPolicy) (v : Nat) : GuestPolicy := ⟨setBits p.val 24 1 v⟩

/-- Wire conversion From GuestPolicy for u64: bit 17 of the guest policy is
reserved and must always be set to 1, so the stored value is or-ed with
1 <<< 17. -/
def toWire (p : GuestPolicy) : Nat := p.val ||| (1 <<< 17)

/-- Serialization of GuestPolicy: serde serializes the newtype struct as its
inner u64, little-endian under bincode. -/
def serialize (p : GuestPolicy) : List Nat := u64le p.val

/-- Deserialization of GuestPolicy from its 8-byte bincode form. -/
def deserialize (bs : List Nat) : GuestPolicy := ⟨leToNat bs⟩

end GuestPolicy

namespace GuestFieldSelect

def get_guest_policy (p : GuestFieldSelect) : Nat := getBits p.val 0 1
def set_guest_policy (p : GuestFieldSelect) (v : Nat) : GuestFieldSelect := ⟨setBits p.val 0 1 v⟩
def get_image_id (p : GuestFieldSelect) : Nat := getBits p.val 1 1
def set_image_id (p : GuestFieldSelect) (v : Nat) : GuestFieldSelect := ⟨setBits p.val 1 1 v⟩
def get_family_id (p : GuestFieldSelect) : Nat := getBits p.val 2 1
def set_family_id (p : GuestFieldSelect) (v : Nat) : GuestFieldSelect := ⟨setBits p.val 2 1 v⟩
def get_measurement (p : GuestFieldSelect) : Nat := getBits p.val 3 1
def set_measurement (p : GuestFieldSelect) (v : Nat) : GuestFieldSelect := ⟨setBits p.val 3 1 v⟩
def get_svn (p : GuestFieldSelect) : Nat := getBits p.val 4 1
def set_svn (p : GuestFieldSelect) (v : Nat) : GuestFieldSelect := ⟨setBits p.val 4 1 v⟩
def get_tcb_version (p : GuestFieldSelect) : Nat := getBits p.val 5 1
def set_tcb_version (p : GuestFieldSelect) (v : Nat) : GuestFieldSelect := ⟨setBits p.val 5 1 v⟩

end GuestFieldSelect

/-- Serialization of PlatformInfo: its inner u64, little-endian. -/
def PlatformInfo.serialize (p : PlatformInfo) : List Nat := u64le p.val

/-- Deserialization of PlatformInfo from its 8-byte bincode form. -/
def PlatformInfo.deserialize (bs : List Nat) : PlatformInfo := ⟨leToNat bs⟩

/-- Serialization of KeyInfo: its inner u32, little-endian. -/
def KeyInfo.serialize (p : KeyInfo) : List Nat := u32le p.val

/-- Deserialization of KeyInfo from its 4-byte bincode form. -/
def KeyInfo.deserialize (bs : List Nat) : KeyInfo := ⟨leToNat bs⟩

/-! ### Frame lemma for the bitfield setters -/

theorem testBit_setBits_outside (x lsb w v i : Nat) (hx : x < 2 ^ 64)
    (hi : i < lsb ∨ lsb + w ≤ i) :
    (setBits x lsb w v).testBit i = x.testBit i := by
  have hval : ((v &&& (2 ^ w - 1)) <<< lsb).testBit i = false := by
    rw [Nat.testBit_shiftLeft]
    by_cases hle : lsb ≤ i
    · have hnw : ¬ (i - lsb < w) := by omega
      rw [Nat.testBit_and, Nat.testBit_two_pow_sub_one]
      simp [hnw]
    · simp [hle]
  have hmaskw : ((2 ^ w - 1) <<< lsb).testBit i = false := by
    rw [Nat.testBit_shiftLeft]
    by_cases hle : lsb ≤ i
    · have hnw : ¬ (i - lsb < w) := by omega
      rw [Nat.testBit_two_pow_sub_one]
      simp [hnw]
    · simp [hle]
  unfold setBits
  rw [Nat.testBit_or, Nat.testBit_and, Nat.testBit_xor, hval, hmaskw]
  by_cases h64 : i < 64
  · have hones : (2 ^ 64 - 1 : Nat).testBit i = true := by
      rw [Nat.testBit_two_pow_sub_one]; simp [h64]
    rw [hones]; simp
  · have hxi : x.testBit i = false :=
      Nat.testBit_eq_false_of_lt
        (lt_of_lt_of_le hx (Nat.pow_le_pow_right (by norm_num) (by omega)))
    have hones : (2 ^ 64 - 1 : Nat).testBit i = false := by
      rw [Nat.testBit_two_pow_sub_one]; simp [h64]
    rw [hones, hxi]; simp

/-! ## Launch session state machine (src/session/mod.rs)

External collaborators are abstract parameters:
* `hmac k m` - HMAC-SHA-256 of message `m` under key `k` (32-byte tag),
  the openssl `Signer`/`Key::mac` primitive;
* `kdf secret len ctx label` - the counter-mode NIST KDF implemented by
  `Key::derive` (src/session/key.rs, outside src/);
* `ks key iv pos` - byte `pos` of the AES-128-CTR keystream for `key`/`iv`
  (the block cipher behind openssl's aes_128_ctr).  CTR mode itself is
  concrete: xor the plaintext against the keystream, byte for byte, so a
  streaming encryption of `tek` then `tik` equals one encryption of the
  32-byte concatenation. -/

/-- AES-128-CTR encryption: xor each plaintext byte against the keystream
byte at its position.  The keystream is the abstract function `ks`. -/
def ctrEncrypt (ks : Nat → Nat) (data : List Nat) : List Nat :=
  List.zipWith Nat.xor data ((List.range data.length).map ks)

theorem length_ctrEncrypt (ks : Nat → Nat) (data : List Nat) :
    (ctrEncrypt ks data).length = data.length := by
  simp [ctrEncrypt]

/-- Modelled from the spec: launch::sev::Policy lives outside src/; it is a
small value type with a stable 4-byte wire representation, used by the
session only through `Policy::bytes` (src/session/mod.rs lines 43-47),
which reinterprets it as its 4 wire bytes.  We model it directly as those
4 bytes. -/
structure Policy where
  b0 : Nat
  b1 : Nat
  b2 : Nat
  b3 : Nat
  deriving Repr, DecidableEq

/-- Wire bytes of a policy, the result of Policy::bytes. -/
def Policy.bytes (p : Policy) : List Nat := [p.b0, p.b1, p.b2, p.b3]

/-- Modelled from the spec: firmware::host::Build lives outside src/; the
session reads build.version.major, build.version.minor and build.build,
each a byte. -/
structure Version where
  major : Nat
  minor : Nat
  deriving Repr, DecidableEq

/-- Modelled from the spec: firmware build record with a nested version. -/
structure Build where
  version : Version
  build : Nat
  deriving Repr, DecidableEq

/-- Measurement supplied by the AMD SP: a 32-byte MAC and a 16-byte nonce. -/
structure Measurement where
  measure : List Nat
  mnonce : List Nat
  deriving Repr, DecidableEq

/-- Session in the Initialized phase: policy plus the two transport keys. -/
structure SessionInitialized where
  policy : Policy
  tek : List Nat
  tik : List Nat
  deriving Repr, DecidableEq

/-- Session in the Measuring phase: the hasher state is modelled as the
list of bytes absorbed so far via update_data. -/
structure SessionMeasuring where
  policy : Policy
  tek : List Nat
  tik : List Nat
  hashData : List Nat
  deriving Repr, DecidableEq

/-- Session in the Verified phase, carrying the agreed measurement. -/
structure SessionVerified where
  policy : Policy
  tek : List Nat
  tik : List Nat
  msr : Measurement
  deriving Repr, DecidableEq

/-- Session descriptor returned by Session<Initialized>::session, the
launch::sev::Session wire record. -/
structure SessionDescriptor where
  policy_mac : List Nat
  wrap_mac : List Nat
  wrap_tk : List Nat
  wrap_iv : List Nat
  nonce : List Nat
  deriving Repr, DecidableEq

/-- Abstract type of the KDF primitive behind Key::derive: secret, output
length, context bytes, label string. -/
def Kdf : Type := List Nat → Nat → List Nat → String → List Nat

/-- Abstract type of the MAC primitive (HMAC-SHA-256): key, message. -/
def Mac : Type := List Nat → List Nat → List Nat

/-- Abstract type of the AES-128-CTR keystream generator: key, iv,
byte position. -/
def CtrKeystream : Type := List Nat → List Nat → Nat → Nat

/-- Session<Initialized>::session: derives master from the shared secret z
with the nonce as context and label sev-master-secret, then kek and kik
from master with empty context and labels sev-kek / sev-kik; wraps
tek followed by tik under AES-128-CTR with key kek and the given iv
(two streaming updates into one 32-byte buffer); macs the wrapped bytes
under kik and the policy wire bytes under tik. -/
def sessionDescriptor (kdf : Kdf) (mac : Mac) (ks : CtrKeystream)
    (s : SessionInitialized) (nonce iv z : List Nat) : SessionDescriptor :=
  let master := kdf z 16 nonce "sev-master-secret"
  let kek := kdf master 16 [] "sev-kek"
  let kik := kdf master 16 [] "sev-kik"
  let wrap := ctrEncrypt (ks kek iv) (s.tek ++ s.tik)
  { policy_mac := mac s.tik s.policy.bytes
    wrap_mac := mac kik wrap
    wrap_tk := wrap
    wrap_iv := iv
    nonce := nonce }

/-- Session<Initialized>::verify: recomputes the launch measurement MAC
over 0x04, the firmware version triple, the policy wire bytes, the digest
and the SP's mnonce, keyed by tik, and compares it against the SP's
measure; on equality the session moves to Verified carrying the
measurement, otherwise the call fails (ErrorKind::InvalidInput) and no
session is produced. -/
def sessionVerify (mac : Mac) (s : SessionInitialized) (digest : List Nat)
    (build : Build) (msr : Measurement) : Option SessionVerified :=
  if mac s.tik (0x04 :: [build.version.major, build.version.minor, build.build]
      ++ s.policy.bytes ++ digest ++ msr.mnonce) = msr.measure then
    some { policy := s.policy, tek := s.tek, tik := s.tik, msr := msr }
  else
    none

/-- Session<Initialized>::measure: begins a fresh SHA-256 accumulator. -/
def sessionMeasure (s : SessionInitialized) : SessionMeasuring :=
  { policy := s.policy, tek := s.tek, tik := s.tik, hashData := [] }

/-- Session<Measuring>::update_data: absorbs more bytes into the hasher. -/
def updateData (s : SessionMeasuring) (data : List Nat) : SessionMeasuring :=
  { s with hashData := s.hashData ++ data }

/-- Session<Measuring>::verify: finishes the hasher (sha256 over every
byte absorbed so far) and verifies with that digest through a rebuilt
Initialized session. -/
def measuringVerify (mac : Mac) (sha256 : List Nat → List Nat)
    (s : SessionMeasuring) (build : Build) (msr : Measurement) :
    Option SessionVerified :=
  let digest := sha256 s.hashData
  sessionVerify mac { policy := s.policy, tek := s.tek, tik := s.tik }
    digest build msr

/-- Session<Measuring>::verify_with_digest: verifies with an externally
generated digest through a rebuilt Initialized session; the hasher state
is discarded. -/
def verifyWithDigest (mac : Mac) (s : SessionMeasuring) (build : Build)
    (msr : Measurement) (digest : List Nat) : Option SessionVerified :=
  sessionVerify mac { policy := s.policy, tek := s.tek, tik := s.tik }
    digest build msr

/-- Secret packet header: flags wire bytes, iv, 32-byte MAC. -/
structure SecretHeader where
  flags : List Nat
  iv : List Nat
  mac : List Nat
  deriving Repr, DecidableEq

/-- Secret packet: header plus ciphertext. -/
structure SecretPacket where
  header : SecretHeader
  ciphertext : List Nat
  deriving Repr, DecidableEq

/-- Little-endian 4-byte encoding of a usize length cast to u32, the
(len as u32).to_le_bytes() calls in Session<Verified>::secret. -/
def lenLE32 (n : Nat) : List Nat := natToLE 4 (n % 2 ^ 32)

/-- Session<Verified>::secret: encrypts the plaintext under AES-128-CTR
with tek and the fresh iv, then macs 0x01, the flags wire bytes, the iv,
the plaintext length and ciphertext length as little-endian u32, the
ciphertext and the session's agreed measure, keyed by tik.  `flagsBytes`
is the 4-byte wire form of the HeaderFlags value (the source
reinterprets the flags value as its 4 bytes). -/
def sessionSecret (mac : Mac) (ks : CtrKeystream) (s : SessionVerified)
    (flagsBytes : List Nat) (iv : List Nat) (data : List Nat) : SecretPacket :=
  let ciphertext := ctrEncrypt (ks s.tek iv) data
  let tag := mac s.tik
    (0x01 :: flagsBytes ++ iv ++ lenLE32 data.length
      ++ lenLE32 ciphertext.length ++ ciphertext ++ s.msr.measure)
  { header := { flags := flagsBytes, iv := iv, mac := tag }
    ciphertext := ciphertext }

/-! ## Attestation report (src/firmware/guest/types/snp.rs)

The report is a repr(C) record serialized by bincode in declaration
order with fixed-width little-endian integers and raw byte arrays. -/

/-- Modelled from the spec: firmware::host::TcbVersion lives outside src/;
it is an 8-byte TCB version vector, serialized as its 8 raw bytes.  We
model it as that byte list (well-formed when of length 8). -/
structure TcbVersion where
  bytes : List Nat
  deriving Repr, DecidableEq

/-- Modelled from the spec: certs::snp::ecdsa::Signature lives outside
src/; it is the 512-byte tail of the report holding the ECDSA R and S
components (72 bytes each, little-endian, zero padded) followed by a
368-byte reserved block, serialized as raw bytes in that order.  The
sizes are forced by the source doc comment (signature covers bytes 0 to
0x29F of the 1184-byte record, so the signature field spans bytes
0x2A0..0x4A0). -/
structure EcdsaSignature where
  r : List Nat
  s : List Nat
  reserved : List Nat
  deriving Repr, DecidableEq

/-- Raw serialized bytes of a signature field: R, then S, then reserved. -/
def EcdsaSignature.bytes (sig : EcdsaSignature) : List Nat :=
  sig.r ++ sig.s ++ sig.reserved

/-- Default (zeroed) signature: zero R, zero S, zero reserved block. -/
def EcdsaSignature.default : EcdsaSignature :=
  { r := List.replicate 72 0, s := List.replicate 72 0
    reserved := List.replicate 368 0 }

/-- AttestationReport: fixed-layout record in source declaration order.
Byte-array fields are byte lists; u32/u64 fields are naturals; the three
bit-packed fields keep their record types. -/
structure AttestationReport where
  version : Nat
  guest_svn : Nat
  policy : GuestPolicy
  family_id : List Nat
  image_id : List Nat
  vmpl : Nat
  sig_algo : Nat
  current_tcb : TcbVersion
  plat_info : PlatformInfo
  key_info : KeyInfo
  reserved_0 : Nat
  report_data : List Nat
  measurement : List Nat
  host_data : List Nat
  id_key_digest : List Nat
  author_key_digest : List Nat
  report_id : List Nat
  report_id_ma : List Nat
  reported_tcb : TcbVersion
  reserved_1 : List Nat
  chip_id : List Nat
  committed_tcb : TcbVersion
  current_build : Nat
  current_minor : Nat
  current_major : Nat
  reserved_2 : Nat
  committed_build : Nat
  committed_minor : Nat
  committed_major : Nat
  reserved_3 : Nat
  launch_tcb : TcbVersion
  reserved_4 : List Nat
  signature : EcdsaSignature
  deriving Repr, DecidableEq

/-- Well-formedness of a report: every byte-array field has its declared
fixed width and every machine integer is in range. -/
def AttestationReport.wf (r : AttestationReport) : Prop :=
  r.version < 2 ^ 32 ∧ r.guest_svn < 2 ^ 32 ∧ r.policy.val < 2 ^ 64 ∧
  r.family_id.length = 16 ∧ r.image_id.length = 16 ∧
  r.vmpl < 2 ^ 32 ∧ r.sig_algo < 2 ^ 32 ∧
  r.current_tcb.bytes.length = 8 ∧ r.plat_info.val < 2 ^ 64 ∧
  r.key_info.val < 2 ^ 32 ∧ r.reserved_0 < 2 ^ 32 ∧
  r.report_data.length = 64 ∧ r.measurement.length = 48 ∧
  r.host_data.length = 32 ∧ r.id_key_digest.length = 48 ∧
  r.author_key_digest.length = 48 ∧ r.report_id.length = 32 ∧
  r.report_id_ma.length = 32 ∧ r.reported_tcb.bytes.length = 8 ∧
  r.reserved_1.length = 24 ∧ r.chip_id.length = 64 ∧
  r.committed_tcb.bytes.length = 8 ∧
  r.current_build < 256 ∧ r.current_minor < 256 ∧ r.current_major < 256 ∧
  r.reserved_2 < 256 ∧ r.committed_build < 256 ∧ r.committed_minor < 256 ∧
  r.committed_major < 256 ∧ r.reserved_3 < 256 ∧
  r.launch_tcb.bytes.length = 8 ∧ r.reserved_4.length = 168 ∧
  r.signature.r.length = 72 ∧ r.signature.s.length = 72 ∧
  r.signature.reserved.length = 368

instance (r : AttestationReport) : Decidable r.wf := by
  unfold AttestationReport.wf; infer_instance

/-- Serialized bytes of a report up to and including the launch_tcb field,
in source declaration order under bincode's fixed-width encoding. -/
def reportBytesThroughLaunchTcb (r : AttestationReport) : List Nat :=
  u32le r.version ++ u32le r.guest_svn ++ r.policy.serialize ++
  r.family_id ++ r.image_id ++ u32le r.vmpl ++ u32le r.sig_algo ++
  r.current_tcb.bytes ++ r.plat_info.serialize ++ r.key_info.serialize ++
  u32le r.reserved_0 ++ r.report_data ++ r.measurement ++ r.host_data ++
  r.id_key_digest ++ r.author_key_digest ++ r.report_id ++ r.report_id_ma ++
  r.reported_tcb.bytes ++ r.reserved_1 ++ r.chip_id ++
  r.committed_tcb.bytes ++
  [r.current_build, r.current_minor, r.current_major, r.reserved_2,
   r.committed_build, r.committed_minor, r.committed_major, r.reserved_3] ++
  r.launch_tcb.bytes

/-- Full bincode serialization of a report: the fields through launch_tcb,
then the trailing 168-byte reserved block, then the 512-byte signature. -/
def serializeReport (r : AttestationReport) : List Nat :=
  reportBytesThroughLaunchTcb r ++ r.reserved_4 ++ r.signature.bytes

/-- Default (zeroed) attestation report, AttestationReport::default. -/
def defaultReport : AttestationReport :=
  { version := 0, guest_svn := 0, policy := ⟨0⟩
    family_id := List.replicate 16 0, image_id := List.replicate 16 0
    vmpl := 0, sig_algo := 0, current_tcb := ⟨List.replicate 8 0⟩
    plat_info := ⟨0⟩, key_info := ⟨0⟩, reserved_0 := 0
    report_data := List.replicate 64 0, measurement := List.replicate 48 0
    host_data := List.replicate 32 0, id_key_digest := List.replicate 48 0
    author_key_digest := List.replicate 48 0
    report_id := List.replicate 32 0, report_id_ma := List.replicate 32 0
    reported_tcb := ⟨List.replicate 8 0⟩, reserved_1 := List.replicate 24 0
    chip_id := List.replicate 64 0, committed_tcb := ⟨List.replicate 8 0⟩
    current_build := 0, current_minor := 0, current_major := 0
    reserved_2 := 0, committed_build := 0, committed_minor := 0
    committed_major := 0, reserved_3 := 0
    launch_tcb := ⟨List.replicate 8 0⟩, reserved_4 := List.replicate 168 0
    signature := EcdsaSignature.default }

/-! ### Report verification (Verifiable impls, openssl backend)

External collaborators: `sha384` hashes a byte list to its 48-byte
digest; `ecdsaVerifyP384 key digest sig` is openssl's EcdsaSig::verify
over curve P-384 with the leaf verifying key; a chain collaborator either
yields its leaf verifying key or fails validation. -/

/-- Abstract type of a leaf verifying key (an openssl EcKey). -/
structure VerifyingKey where
  keyId : Nat
  deriving Repr, DecidableEq

/-- Errors surfaced by report verification. -/
inductive VerifyError where
  /-- The certificate chain failed its own collaborator validation. -/
  | trust : VerifyError
  /-- The embedded signature does not validate over the signed bytes. -/
  | verification : VerifyError
  deriving Repr, DecidableEq

/-- Verifiable for (&Certificate, &AttestationReport): serialize the
report, keep the first 0x2A0 bytes, hash them with SHA-384, then check
the embedded ECDSA signature over that digest using the certificate's
key.  Ok on a valid signature, an error otherwise; the report value is
untouched (the function is pure in the report). -/
def verifyReportWithCert (sha384 : List Nat → List Nat)
    (ecdsaVerifyP384 : VerifyingKey → List Nat → EcdsaSignature → Bool)
    (vek : VerifyingKey) (report : AttestationReport) :
    Except VerifyError Unit :=
  let measurableBytes := (serializeReport report).take 0x2A0
  let baseDigest := sha384 measurableBytes
  if ecdsaVerifyP384 vek baseDigest report.signature then
    Except.ok ()
  else
    Except.error VerifyError.verification

/-- Verifiable for (&Chain, &AttestationReport): first validates the chain
collaborator to obtain the leaf key (propagating its failure), then
proceeds exactly as the certificate variant. -/
def verifyReportWithChain (sha384 : List Nat → List Nat)
    (ecdsaVerifyP384 : VerifyingKey → List Nat → EcdsaSignature → Bool)
    (chainVerify : Option VerifyingKey) (report : AttestationReport) :
    Except VerifyError Unit :=
  match chainVerify with
  | none => Except.error VerifyError.trust
  | some vek => verifyReportWithCert sha384 ecdsaVerifyP384 vek report

/-! ## Helper lemmas -/

theorem u32le_zero : u32le 0 = List.replicate 4 0 := by decide

theorem u64le_zero : u64le 0 = List.replicate 8 0 := by decide

theorem defaultReport_wf : defaultReport.wf := by
  norm_num [AttestationReport.wf, defaultReport, EcdsaSignature.default]

theorem reportThroughLaunchTcb_default :
    reportBytesThroughLaunchTcb defaultReport = List.replicate 0x1F8 0 := by
  have hlit : ([0, 0, 0, 0, 0, 0, 0, 0] : List Nat) = List.replicate 8 0 := by
    decide
  simp only [reportBytesThroughLaunchTcb, defaultReport,
    GuestPolicy.serialize, PlatformInfo.serialize, KeyInfo.serialize,
    u32le_zero, u64le_zero, hlit, ← List.replicate_add]

theorem serializeReport_default :
    serializeReport defaultReport = List.replicate 1184 0 := by
  have hlit : ([0, 0, 0, 0, 0, 0, 0, 0] : List Nat) = List.replicate 8 0 := by
    decide
  simp only [serializeReport, reportBytesThroughLaunchTcb, defaultReport,
    EcdsaSignature.bytes, EcdsaSignature.default,
    GuestPolicy.serialize, PlatformInfo.serialize, KeyInfo.serialize,
    u32le_zero, u64le_zero, hlit, ← List.replicate_add]

theorem signedRegion_layout (r : AttestationReport) (h : r.wf) :
    (serializeReport r).length = 1184 ∧
    (reportBytesThroughLaunchTcb r).length = 0x1F8 ∧
    (reportBytesThroughLaunchTcb r ++ r.reserved_4).length = 0x2A0 ∧
    (serializeReport r).take 0x2A0 =
      reportBytesThroughLaunchTcb r ++ r.reserved_4 ∧
    (serializeReport r).drop 0x2A0 = r.signature.bytes := by
  obtain ⟨h1, h2, h3, h4, h5, h6, h7, h8, h9, h10, h11, h12, h13, h14, h15,
    h16, h17, h18, h19, h20, h21, h22, h23, h24, h25, h26, h27, h28, h29,
    h30, h31, h32, h33, h34, h35⟩ := h
  have hlen : (reportBytesThroughLaunchTcb r).length = 0x1F8 := by
    simp [reportBytesThroughLaunchTcb, u32le, u64le, GuestPolicy.serialize,
      PlatformInfo.serialize, KeyInfo.serialize, length_natToLE,
      h4, h5, h8, h12, h13, h14, h15, h16, h17, h18, h19, h20, h21, h22, h31]
  have hlen2 : (reportBytesThroughLaunchTcb r ++ r.reserved_4).length = 0x2A0 := by
    simp [hlen, h32]
  have hsig : r.signature.bytes.length = 512 := by
    simp [EcdsaSignature.bytes, h33, h34, h35]
  have hassoc : serializeReport r =
      (reportBytesThroughLaunchTcb r ++ r.reserved_4) ++ r.signature.bytes := by
    simp [serializeReport]
  refine ⟨?_, hlen, hlen2, ?_, ?_⟩
  · rw [hassoc]
    simp [hlen, h32, hsig]
  · rw [hassoc, ← hlen2, List.take_left]
  · rw [hassoc, ← hlen2, List.drop_left]

theorem getBits_setBits_disjoint (x v lsb w lsb2 w2 : Nat) (hx : x < 2 ^ 64)
    (hd : lsb + w ≤ lsb2 ∨ lsb2 + w2 ≤ lsb) :
    getBits (setBits x lsb w v) lsb2 w2 = getBits x lsb2 w2 := by
  unfold getBits
  apply Nat.eq_of_testBit_eq
  intro j
  rw [Nat.testBit_and, Nat.testBit_and, Nat.testBit_shiftRight,
    Nat.testBit_shiftRight]
  by_cases hj : j < w2
  · rw [testBit_setBits_outside x lsb w v (lsb2 + j) hx (by omega)]
  · rw [Nat.testBit_two_pow_sub_one]
    simp [hj]

end Sev

open Sev

/-- C6: the conversion of a GuestPolicy to its u64 wire form has bit 17
set to 1 regardless of the stored value, and every bit other than bit 17
is carried into the wire form unchanged; this holds for every stored
value, including 0 and u64::MAX. -/
theorem guestPolicy_toWire_bit17 (p : GuestPolicy) :
    p.toWire.testBit 17 = true ∧
    (∀ i : Nat, i ≠ 17 → p.toWire.testBit i = p.val.testBit i) := by
  unfold GuestPolicy.toWire
  rw [Nat.one_shiftLeft]
  constructor
  · rw [Nat.testBit_or, Nat.testBit_two_pow_self]
    simp
  · intro i hi
    rw [Nat.testBit_or, Nat.testBit_two_pow_of_ne (by omega)]
    simp

/-- C6 witness: at the boundary values 0 and u64::MAX, bit 17 of the wire
form is set and bit 16 (a bit other than 17) is carried unchanged. -/
theorem guestPolicy_toWire_bit17_witness :
    (GuestPolicy.toWire ⟨0⟩).testBit 17 = true ∧
    (GuestPolicy.toWire ⟨0⟩).testBit 16 = Nat.testBit 0 16 ∧
    (GuestPolicy.toWire ⟨2 ^ 64 - 1⟩).testBit 17 = true ∧
    (GuestPolicy.toWire ⟨2 ^ 64 - 1⟩).testBit 16 =
      Nat.testBit (2 ^ 64 - 1) 16 :=
  ⟨(guestPolicy_toWire_bit17 ⟨0⟩).1,
   (guestPolicy_toWire_bit17 ⟨0⟩).2 16 (by decide),
   (guestPolicy_toWire_bit17 ⟨2 ^ 64 - 1⟩).1,
   (guestPolicy_toWire_bit17 ⟨2 ^ 64 - 1⟩).2 16 (by decide)⟩

/-- C7: deserializing the serialization of a GuestPolicy, PlatformInfo or
KeyInfo record yields the record back with every bit preserved, for every
in-range stored value, reserved bits included; the boundary values 0 and
all-ones are instances. -/
theorem bitfieldRecords_roundtrip :
    (∀ v : Nat, v < 2 ^ 64 →
      GuestPolicy.deserialize (GuestPolicy.serialize ⟨v⟩) = ⟨v⟩) ∧
    (∀ v : Nat, v < 2 ^ 64 →
      PlatformInfo.deserialize (PlatformInfo.serialize ⟨v⟩) = ⟨v⟩) ∧
    (∀ v : Nat, v < 2 ^ 32 →
      KeyInfo.deserialize (KeyInfo.serialize ⟨v⟩) = ⟨v⟩) := by
  refine ⟨fun v hv => ?_, fun v hv => ?_, fun v hv => ?_⟩
  · unfold GuestPolicy.deserialize GuestPolicy.serialize u64le
    rw [leToNat_natToLE 8 v (by norm_num at hv ⊢; omega)]
  · unfold PlatformInfo.deserialize PlatformInfo.serialize u64le
    rw [leToNat_natToLE 8 v (by norm_num at hv ⊢; omega)]
  · unfold KeyInfo.deserialize KeyInfo.serialize u32le
    rw [leToNat_natToLE 4 v (by norm_num at hv ⊢; omega)]

/-- C7 witness: the round trip at the all-ones boundary values u64::MAX
for GuestPolicy and PlatformInfo and u32::MAX for KeyInfo, and at 0 for
GuestPolicy. -/
theorem bitfieldRecords_roundtrip_witness :
    GuestPolicy.deserialize (GuestPolicy.serialize ⟨2 ^ 64 - 1⟩) =
      (⟨2 ^ 64 - 1⟩ : GuestPolicy) ∧
    PlatformInfo.deserialize (PlatformInfo.serialize ⟨2 ^ 64 - 1⟩) =
      (⟨2 ^ 64 - 1⟩ : PlatformInfo) ∧
    KeyInfo.deserialize (KeyInfo.serialize ⟨2 ^ 32 - 1⟩) =
      (⟨2 ^ 32 - 1⟩ : KeyInfo) ∧
    GuestPolicy.deserialize (GuestPolicy.serialize ⟨0⟩) =
      (⟨0⟩ : GuestPolicy) :=
  ⟨bitfieldRecords_roundtrip.1 (2 ^ 64 - 1) (by norm_num),
   bitfieldRecords_roundtrip.2.1 (2 ^ 64 - 1) (by norm_num),
   bitfieldRecords_roundtrip.2.2 (2 ^ 32 - 1) (by norm_num),
   bitfieldRecords_roundtrip.1 0 (by norm_num)⟩

/-- C9: every field setter of GuestPolicy and GuestFieldSelect changes
only the bits of its documented range: every bit outside that range,
reserved and sibling bits included, reads the same before and after the
write, and reading any field whose range is disjoint from the written one
yields the value it had before.  The final conjunct states the latter for
the generic accessor pair generated by the bitfield macro; the earlier
conjuncts state bit-level preservation for each named setter at its
documented (lsb, width): abi_minor (0,8), abi_major (8,8), smt (16,1),
migrate_ma (18,1), debug (19,1), single_socket (20,1), cxl (21,1),
mem_aes_256_xts (22,1), rapl_dis (23,1), ciphertext_hiding (24,1), and
the six single-bit ranges 0..5 of GuestFieldSelect. -/
theorem bitfieldSetters_frame :
    (∀ (p : GuestPolicy) (v i : Nat), p.val < 2 ^ 64 → 8 ≤ i →
      (p.set_abi_minor v).val.testBit i = p.val.testBit i) ∧
    (∀ (p : GuestPolicy) (v i : Nat), p.val < 2 ^ 64 → i < 8 ∨ 16 ≤ i →
      (p.set_abi_major v).val.testBit i = p.val.testBit i) ∧
    (∀ (p : GuestPolicy) (v i : Nat), p.val < 2 ^ 64 → i < 16 ∨ 17 ≤ i →
      (p.set_smt_allowed v).val.testBit i = p.val.testBit i) ∧
    (∀ (p : GuestPolicy) (v i : Nat), p.val < 2 ^ 64 → i < 18 ∨ 19 ≤ i →
      (p.set_migrate_ma_allowed v).val.testBit i = p.val.testBit i) ∧
    (∀ (p : GuestPolicy) (v i : Nat), p.val < 2 ^ 64 → i < 19 ∨ 20 ≤ i →
      (p.set_debug_allowed v).val.testBit i = p.val.testBit i) ∧
    (∀ (p : GuestPolicy) (v i : Nat), p.val < 2 ^ 64 → i < 20 ∨ 21 ≤ i →
      (p.set_single_socket_required v).val.testBit i = p.val.testBit i) ∧
    (∀ (p : GuestPolicy) (v i : Nat), p.val < 2 ^ 64 → i < 21 ∨ 22 ≤ i →
      (p.set_cxl_allowed v).val.testBit i = p.val.testBit i) ∧
    (∀ (p : GuestPolicy) (v i : Nat), p.val < 2 ^ 64 → i < 22 ∨ 23 ≤ i →
      (p.set_mem_aes_256_xts v).val.testBit i = p.val.testBit i) ∧
    (∀ (p : GuestPolicy) (v i : Nat), p.val < 2 ^ 64 → i < 23 ∨ 24 ≤ i →
      (p.set_rapl_dis v).val.testBit i = p.val.testBit i) ∧
    (∀ (p : GuestPolicy) (v i : Nat), p.val < 2 ^ 64 → i < 24 ∨ 25 ≤ i →
      (p.set_ciphertext_hiding v).val.testBit i = p.val.testBit i) ∧
    (∀ (p : GuestFieldSelect) (v i : Nat), p.val < 2 ^ 64 → i ≠ 0 →
      (p.set_guest_policy v).val.testBit i = p.val.testBit i) ∧
    (∀ (p : GuestFieldSelect) (v i : Nat), p.val < 2 ^ 64 → i ≠ 1 →
      (p.set_image_id v).val.testBit i = p.val.testBit i) ∧
    (∀ (p : GuestFieldSelect) (v i : Nat), p.val < 2 ^ 64 → i ≠ 2 →
      (p.set_family_id v).val.testBit i = p.val.testBit i) ∧
    (∀ (p : GuestFieldSelect) (v i : Nat), p.val < 2 ^ 64 → i ≠ 3 →
      (p.set_measurement v).val.testBit i = p.val.testBit i) ∧
    (∀ (p : GuestFieldSelect) (v i : Nat), p.val < 2 ^ 64 → i ≠ 4 →
      (p.set_svn v).val.testBit i = p.val.testBit i) ∧
    (∀ (p : GuestFieldSelect) (v i : Nat), p.val < 2 ^ 64 → i ≠ 5 →
      (p.set_tcb_version v).val.testBit i = p.val.testBit i) ∧
    (∀ (x v lsb w lsb2 w2 : Nat), x < 2 ^ 64 →
      lsb + w ≤ lsb2 ∨ lsb2 + w2 ≤ lsb →
      getBits (setBits x lsb w v) lsb2 w2 = getBits x lsb2 w2) := by
  refine ⟨?_, ?_, ?_, ?_, ?_, ?_, ?_, ?_, ?_, ?_, ?_, ?_, ?_, ?_, ?_, ?_,
    fun x v lsb w lsb2 w2 hx hd => getBits_setBits_disjoint x v lsb w lsb2 w2 hx hd⟩
  all_goals
    intro p v i hp hi
    exact testBit_setBits_outside p.val _ _ v i hp (by omega)

/-- C9 witness: a concrete write through each setter at an all-ones-so-far
value leaves a concrete bit outside the written range unchanged, and a
disjoint generic field read is unchanged by a generic field write. -/
theorem bitfieldSetters_frame_witness :
    (GuestPolicy.set_abi_minor ⟨2 ^ 25 - 1⟩ 0).val.testBit 9 =
      Nat.testBit (2 ^ 25 - 1) 9 ∧
    (GuestPolicy.set_abi_major ⟨2 ^ 25 - 1⟩ 0).val.testBit 17 =
      Nat.testBit (2 ^ 25 - 1) 17 ∧
    (GuestPolicy.set_smt_allowed ⟨2 ^ 25 - 1⟩ 0).val.testBit 17 =
      Nat.testBit (2 ^ 25 - 1) 17 ∧
    (GuestPolicy.set_migrate_ma_allowed ⟨2 ^ 25 - 1⟩ 0).val.testBit 17 =
      Nat.testBit (2 ^ 25 - 1) 17 ∧
    (GuestPolicy.set_debug_allowed ⟨2 ^ 25 - 1⟩ 0).val.testBit 17 =
      Nat.testBit (2 ^ 25 - 1) 17 ∧
    (GuestPolicy.set_single_socket_required ⟨2 ^ 25 - 1⟩ 0).val.testBit 17 =
      Nat.testBit (2 ^ 25 - 1) 17 ∧
    (GuestPolicy.set_cxl_allowed ⟨2 ^ 25 - 1⟩ 0).val.testBit 17 =
      Nat.testBit (2 ^ 25 - 1) 17 ∧
    (GuestPolicy.set_mem_aes_256_xts ⟨2 ^ 25 - 1⟩ 0).val.testBit 17 =
      Nat.testBit (2 ^ 25 - 1) 17 ∧
    (GuestPolicy.set_rapl_dis ⟨2 ^ 25 - 1⟩ 0).val.testBit 17 =
      Nat.testBit (2 ^ 25 - 1) 17 ∧
    (GuestPolicy.set_ciphertext_hiding ⟨2 ^ 25 - 1⟩ 0).val.testBit 17 =
      Nat.testBit (2 ^ 25 - 1) 17 ∧
    (GuestFieldSelect.set_guest_policy ⟨63⟩ 0).val.testBit 1 =
      Nat.testBit 63 1 ∧
    (GuestFieldSelect.set_image_id ⟨63⟩ 0).val.testBit 2 =
      Nat.testBit 63 2 ∧
    (GuestFieldSelect.set_family_id ⟨63⟩ 0).val.testBit 3 =
      Nat.testBit 63 3 ∧
    (GuestFieldSelect.set_measurement ⟨63⟩ 0).val.testBit 4 =
      Nat.testBit 63 4 ∧
    (GuestFieldSelect.set_svn ⟨63⟩ 0).val.testBit 5 =
      Nat.testBit 63 5 ∧
    (GuestFieldSelect.set_tcb_version ⟨63⟩ 0).val.testBit 0 =
      Nat.testBit 63 0 ∧
    getBits (setBits (2 ^ 25 - 1) 0 8 0) 8 8 = getBits (2 ^ 25 - 1) 8 8 :=
  ⟨bitfieldSetters_frame.1 ⟨2 ^ 25 - 1⟩ 0 9 (by norm_num) (by norm_num),
   bitfieldSetters_frame.2.1 ⟨2 ^ 25 - 1⟩ 0 17 (by norm_num) (by norm_num),
   bitfieldSetters_frame.2.2.1 ⟨2 ^ 25 - 1⟩ 0 17 (by norm_num) (by norm_num),
   bitfieldSetters_frame.2.2.2.1 ⟨2 ^ 25 - 1⟩ 0 17 (by norm_num) (by norm_num),
   bitfieldSetters_frame.2.2.2.2.1 ⟨2 ^ 25 - 1⟩ 0 17 (by norm_num) (by norm_num),
   bitfieldSetters_frame.2.2.2.2.2.1 ⟨2 ^ 25 - 1⟩ 0 17 (by norm_num) (by norm_num),
   bitfieldSetters_frame.2.2.2.2.2.2.1 ⟨2 ^ 25 - 1⟩ 0 17 (by norm_num) (by norm_num),
   bitfieldSetters_frame.2.2.2.2.2.2.2.1 ⟨2 ^ 25 - 1⟩ 0 17 (by norm_num) (by norm_num),
   bitfieldSetters_frame.2.2.2.2.2.2.2.2.1 ⟨2 ^ 25 - 1⟩ 0 17 (by norm_num) (by norm_num),
   bitfieldSetters_frame.2.2.2.2.2.2.2.2.2.1 ⟨2 ^ 25 - 1⟩ 0 17 (by norm_num) (by norm_num),
   bitfieldSetters_frame.2.2.2.2.2.2.2.2.2.2.1 ⟨63⟩ 0 1 (by norm_num) (by norm_num),
   bitfieldSetters_frame.2.2.2.2.2.2.2.2.2.2.2.1 ⟨63⟩ 0 2 (by norm_num) (by norm_num),
   bitfieldSetters_frame.2.2.2.2.2.2.2.2.2.2.2.2.1 ⟨63⟩ 0 3 (by norm_num) (by norm_num),
   bitfieldSetters_frame.2.2.2.2.2.2.2.2.2.2.2.2.2.1 ⟨63⟩ 0 4 (by norm_num) (by norm_num),
   bitfieldSetters_frame.2.2.2.2.2.2.2.2.2.2.2.2.2.2.1 ⟨63⟩ 0 5 (by norm_num) (by norm_num),
   bitfieldSetters_frame.2.2.2.2.2.2.2.2.2.2.2.2.2.2.2.1 ⟨63⟩ 0 0 (by norm_num) (by norm_num),
   bitfieldSetters_frame.2.2.2.2.2.2.2.2.2.2.2.2.2.2.2.2 (2 ^ 25 - 1) 0 0 8 8 8
     (by norm_num) (by norm_num)⟩

/-- C1: Session of Initialized::verify computes the expected MAC as
HMAC-SHA-256 keyed by tik over 0x04, the firmware major, minor and build
bytes, the 4 policy wire bytes, the digest and the measurement's mnonce;
a Verified session carrying the measurement is produced exactly when that
MAC equals the measurement's measure, and on mismatch the call fails and
no Verified session exists. -/
theorem sessionVerify_iff_mac (mac : Mac) (s : SessionInitialized)
    (digest : List Nat) (build : Build) (msr : Measurement) :
    ((∃ v : SessionVerified, sessionVerify mac s digest build msr = some v ∧
        v.msr = msr) ↔
      mac s.tik (0x04 :: [build.version.major, build.version.minor, build.build]
        ++ s.policy.bytes ++ digest ++ msr.mnonce) = msr.measure) ∧
    (mac s.tik (0x04 :: [build.version.major, build.version.minor, build.build]
        ++ s.policy.bytes ++ digest ++ msr.mnonce) ≠ msr.measure →
      sessionVerify mac s digest build msr = none) := by
  unfold sessionVerify
  constructor
  · constructor
    · rintro ⟨v, hv, -⟩
      by_contra hne
      rw [if_neg hne] at hv
      exact Option.noConfusion hv
    · intro heq
      exact ⟨_, by rw [if_pos heq], rfl⟩
  · intro hne
    rw [if_neg hne]

/-- C1 witness: with a concrete MAC primitive returning the key itself,
a matching measure yields the Verified session and a mismatching one
yields none. -/
theorem sessionVerify_iff_mac_witness :
    sessionVerify (fun k _ => k)
      { policy := ⟨0, 0, 0, 0⟩, tek := [1], tik := [7] } []
      { version := { major := 0, minor := 0 }, build := 0 }
      { measure := [9], mnonce := [] } = none :=
  (sessionVerify_iff_mac (fun k _ => k)
      { policy := ⟨0, 0, 0, 0⟩, tek := [1], tik := [7] } []
      { version := { major := 0, minor := 0 }, build := 0 }
      { measure := [9], mnonce := [] }).2 (by decide)

/-- C4: the session-descriptor computation derives master from the shared
secret z with the nonce as KDF context and label sev-master-secret, kek
and kik from master with empty context and labels sev-kek and sev-kik,
wraps the 32-byte concatenation of tek and tik under AES-128-CTR with key
kek and the given iv, macs the wrapped bytes under kik and the policy
wire bytes under tik, and returns exactly the descriptor with wrap_iv the
given iv and the given nonce. -/
theorem sessionDescriptor_spec (kdf : Kdf) (mac : Mac) (ks : CtrKeystream)
    (s : SessionInitialized) (nonce iv z : List Nat)
    (htek : s.tek.length = 16) (htik : s.tik.length = 16) :
    (s.tek ++ s.tik).length = 32 ∧
    sessionDescriptor kdf mac ks s nonce iv z =
      { policy_mac := mac s.tik s.policy.bytes
        wrap_mac := mac (kdf (kdf z 16 nonce "sev-master-secret") 16 [] "sev-kik")
          (ctrEncrypt (ks (kdf (kdf z 16 nonce "sev-master-secret") 16 [] "sev-kek") iv)
            (s.tek ++ s.tik))
        wrap_tk := ctrEncrypt
          (ks (kdf (kdf z 16 nonce "sev-master-secret") 16 [] "sev-kek") iv)
          (s.tek ++ s.tik)
        wrap_iv := iv
        nonce := nonce } ∧
    (sessionDescriptor kdf mac ks s nonce iv z).wrap_tk.length = 32 := by
  refine ⟨by simp [htek, htik], rfl, ?_⟩
  simp [sessionDescriptor, length_ctrEncrypt, htek, htik]

/-- C4 witness: the descriptor of a zeroed session under trivial KDF, MAC
and keystream primitives, with 16-byte keys. -/
theorem sessionDescriptor_spec_witness :
    (List.replicate 16 0 ++ List.replicate 16 0).length = 32 ∧
    sessionDescriptor (fun z _ _ _ => z) (fun k _ => k) (fun _ _ _ => 0)
      { policy := ⟨0, 0, 0, 0⟩, tek := List.replicate 16 0
        tik := List.replicate 16 0 } (List.replicate 16 0)
      (List.replicate 16 0) (List.replicate 16 0) =
      { policy_mac := List.replicate 16 0
        wrap_mac := List.replicate 16 0
        wrap_tk := ctrEncrypt (fun _ => 0)
          (List.replicate 16 0 ++ List.replicate 16 0)
        wrap_iv := List.replicate 16 0
        nonce := List.replicate 16 0 } ∧
    (sessionDescriptor (fun z _ _ _ => z) (fun k _ => k) (fun _ _ _ => 0)
      { policy := ⟨0, 0, 0, 0⟩, tek := List.replicate 16 0
        tik := List.replicate 16 0 } (List.replicate 16 0)
      (List.replicate 16 0) (List.replicate 16 0)).wrap_tk.length = 32 :=
  sessionDescriptor_spec (fun z _ _ _ => z) (fun k _ => k) (fun _ _ _ => 0)
    { policy := ⟨0, 0, 0, 0⟩, tek := List.replicate 16 0
      tik := List.replicate 16 0 } (List.replicate 16 0)
    (List.replicate 16 0) (List.replicate 16 0) (by decide) (by decide)

/-- C5: Session of Verified::secret produces a packet whose ciphertext is
the AES-128-CTR encryption of the plaintext under tek with the fresh iv,
of length exactly the plaintext length, and whose header MAC is
HMAC-SHA-256 keyed by tik over 0x01, the 4 flags wire bytes, the iv, the
plaintext and ciphertext lengths as little-endian u32, the ciphertext and
the session's agreed measure; the packet is the header with those flags,
iv and MAC together with the ciphertext. -/
theorem sessionSecret_spec (mac : Mac) (ks : CtrKeystream)
    (s : SessionVerified) (flagsBytes iv data : List Nat) :
    (sessionSecret mac ks s flagsBytes iv data).ciphertext =
      ctrEncrypt (ks s.tek iv) data ∧
    (sessionSecret mac ks s flagsBytes iv data).ciphertext.length =
      data.length ∧
    sessionSecret mac ks s flagsBytes iv data =
      { header :=
          { flags := flagsBytes, iv := iv
            mac := mac s.tik
              (0x01 :: flagsBytes ++ iv ++ lenLE32 data.length
                ++ lenLE32 (ctrEncrypt (ks s.tek iv) data).length
                ++ ctrEncrypt (ks s.tek iv) data ++ s.msr.measure) }
        ciphertext := ctrEncrypt (ks s.tek iv) data } :=
  ⟨rfl, length_ctrEncrypt (ks s.tek iv) data, rfl⟩

/-- C10: the outcome of verify_with_digest depends only on the session's
policy, tek and tik together with the supplied build, measurement and
digest; two Measuring sessions identical in those components but with
different bytes accumulated through update_data verify identically, so
the hasher state is discarded. -/
theorem verifyWithDigest_ignores_hasher (mac : Mac)
    (s1 s2 : SessionMeasuring) (build : Build) (msr : Measurement)
    (digest : List Nat) (hp : s1.policy = s2.policy) (ht : s1.tek = s2.tek)
    (hk : s1.tik = s2.tik) :
    verifyWithDigest mac s1 build msr digest =
      verifyWithDigest mac s2 build msr digest := by
  unfold verifyWithDigest
  rw [hp, ht, hk]

/-- C10 witness: a session and the same session after absorbing three
extra bytes through update_data verify identically with an external
digest under a concrete MAC primitive. -/
theorem verifyWithDigest_ignores_hasher_witness :
    verifyWithDigest (fun k _ => k)
      { policy := ⟨0, 0, 0, 0⟩, tek := [1], tik := [7], hashData := [] }
      { version := { major := 0, minor := 0 }, build := 0 }
      { measure := [9], mnonce := [] } [3] =
    verifyWithDigest (fun k _ => k)
      (updateData
        { policy := ⟨0, 0, 0, 0⟩, tek := [1], tik := [7], hashData := [] }
        [5, 6, 7])
      { version := { major := 0, minor := 0 }, build := 0 }
      { measure := [9], mnonce := [] } [3] :=
  verifyWithDigest_ignores_hasher (fun k _ => k)
    { policy := ⟨0, 0, 0, 0⟩, tek := [1], tik := [7], hashData := [] }
    (updateData
      { policy := ⟨0, 0, 0, 0⟩, tek := [1], tik := [7], hashData := [] }
      [5, 6, 7])
    { version := { major := 0, minor := 0 }, build := 0 }
    { measure := [9], mnonce := [] } [3] rfl rfl rfl

/-- C2: report verification serializes the report to its fixed-width
binary form, hashes exactly the first 0x2A0 bytes with SHA-384 and checks
the embedded ECDSA P-384 signature over that digest with the leaf
verifying key; it succeeds exactly when the signature validates, fails
with a verification error when it does not, the chain variant with a
valid chain behaves exactly as the certificate variant, and a chain that
fails its own validation propagates the trust error.  Both variants are
pure in the report, so the report is not mutated. -/
theorem verifyReport_signature_iff (sha384 : List Nat → List Nat)
    (ecdsa : VerifyingKey → List Nat → EcdsaSignature → Bool)
    (vek : VerifyingKey) (report : AttestationReport) :
    (verifyReportWithCert sha384 ecdsa vek report = Except.ok () ↔
      ecdsa vek (sha384 ((serializeReport report).take 0x2A0))
        report.signature = true) ∧
    (ecdsa vek (sha384 ((serializeReport report).take 0x2A0))
        report.signature = false →
      verifyReportWithCert sha384 ecdsa vek report =
        Except.error VerifyError.verification) ∧
    (verifyReportWithChain sha384 ecdsa (some vek) report =
      verifyReportWithCert sha384 ecdsa vek report) ∧
    (verifyReportWithChain sha384 ecdsa none report =
      Except.error VerifyError.trust) := by
  refine ⟨?_, ?_, rfl, rfl⟩
  · unfold verifyReportWithCert
    by_cases hb : ecdsa vek (sha384 ((serializeReport report).take 0x2A0))
        report.signature = true
    · rw [if_pos hb]
      simp [hb]
    · rw [if_neg hb]
      simp [hb]
  · intro hb
    unfold verifyReportWithCert
    rw [if_neg (by simp [hb])]

/-- C2 witness: with a primitive that rejects every signature, verifying
the default report under a certificate key fails with the verification
error. -/
theorem verifyReport_signature_iff_witness :
    verifyReportWithCert (fun _ => []) (fun _ _ _ => false) ⟨0⟩
      defaultReport = Except.error VerifyError.verification :=
  (verifyReport_signature_iff (fun _ => []) (fun _ _ _ => false) ⟨0⟩
    defaultReport).2.1 rfl

/-- C3 counterexample: on the default report, which is well-formed, the
byte offset just past the launch_tcb field is 0x1F8 = 504, not 0x2A0, and
the first 0x2A0 bytes of the serialized record extend past launch_tcb
through the trailing 168-byte reserved block. -/
theorem reportLayout_launchTcb_cex :
    (reportBytesThroughLaunchTcb defaultReport).length = 0x1F8 ∧
    ¬ ((reportBytesThroughLaunchTcb defaultReport).length = 0x2A0) ∧
    (serializeReport defaultReport).take 0x2A0 =
      reportBytesThroughLaunchTcb defaultReport ++ defaultReport.reserved_4 := by
  refine ⟨?_, ?_, (signedRegion_layout defaultReport defaultReport_wf).2.2.2.1⟩
  · rw [reportThroughLaunchTcb_default]
    simp
  · rw [reportThroughLaunchTcb_default]
    simp

/-- C3 amended: for every well-formed report the signed prefix of 0x2A0
(672) bytes comprises everything before the signature field, that is
everything through the launch-TCB field together with the trailing
168-byte reserved block; the offset just past launch_tcb is 0x1F8, the
reserved block occupies bytes 0x1F8 to 0x29F, and the signature field,
which is exactly the bytes from offset 0x2A0 on, is outside the signed
region. -/
theorem reportLayout_signedRegion (r : AttestationReport) (h : r.wf) :
    (serializeReport r).length = 1184 ∧
    (reportBytesThroughLaunchTcb r).length = 0x1F8 ∧
    (reportBytesThroughLaunchTcb r ++ r.reserved_4).length = 0x2A0 ∧
    (serializeReport r).take 0x2A0 =
      reportBytesThroughLaunchTcb r ++ r.reserved_4 ∧
    (serializeReport r).drop 0x2A0 = r.signature.bytes :=
  signedRegion_layout r h

/-- C3 amended witness: the signed-region layout at the default report. -/
theorem reportLayout_signedRegion_witness :
    (serializeReport defaultReport).length = 1184 ∧
    (reportBytesThroughLaunchTcb defaultReport).length = 0x1F8 ∧
    (reportBytesThroughLaunchTcb defaultReport ++
      defaultReport.reserved_4).length = 0x2A0 ∧
    (serializeReport defaultReport).take 0x2A0 =
      reportBytesThroughLaunchTcb defaultReport ++ defaultReport.reserved_4 ∧
    (serializeReport defaultReport).drop 0x2A0 =
      defaultReport.signature.bytes :=
  reportLayout_signedRegion defaultReport defaultReport_wf

/-- C8: the default (zeroed) attestation report serializes to exactly
1184 bytes, all of them zero, and every named field reads back as zero,
the signature field reading back as zero R and S components. -/
theorem defaultReport_zeroed :
    (serializeReport defaultReport).length = 1184 ∧
    serializeReport defaultReport = List.replicate 1184 0 ∧
    defaultReport.version = 0 ∧
    defaultReport.guest_svn = 0 ∧
    defaultReport.policy = ⟨0⟩ ∧
    defaultReport.family_id = List.replicate 16 0 ∧
    defaultReport.image_id = List.replicate 16 0 ∧
    defaultReport.vmpl = 0 ∧
    defaultReport.sig_algo = 0 ∧
    defaultReport.current_tcb = ⟨List.replicate 8 0⟩ ∧
    defaultReport.plat_info = ⟨0⟩ ∧
    defaultReport.key_info = ⟨0⟩ ∧
    defaultReport.report_data = List.replicate 64 0 ∧
    defaultReport.measurement = List.replicate 48 0 ∧
    defaultReport.host_data = List.replicate 32 0 ∧
    defaultReport.id_key_digest = List.replicate 48 0 ∧
    defaultReport.author_key_digest = List.replicate 48 0 ∧
    defaultReport.report_id = List.replicate 32 0 ∧
    defaultReport.report_id_ma = List.replicate 32 0 ∧
    defaultReport.reported_tcb = ⟨List.replicate 8 0⟩ ∧
    defaultReport.chip_id = List.replicate 64 0 ∧
    defaultReport.committed_tcb = ⟨List.replicate 8 0⟩ ∧
    defaultReport.current_build = 0 ∧
    defaultReport.current_minor = 0 ∧
    defaultReport.current_major = 0 ∧
    defaultReport.committed_build = 0 ∧
    defaultReport.committed_minor = 0 ∧
    defaultReport.committed_major = 0 ∧
    defaultReport.launch_tcb = ⟨List.replicate 8 0⟩ ∧
    defaultReport.signature.r = List.replicate 72 0 ∧
    defaultReport.signature.s = List.replicate 72 0 := by
  refine ⟨?_, serializeReport_default, rfl, rfl, rfl, rfl, rfl, rfl, rfl,
    rfl, rfl, rfl, rfl, rfl, rfl, rfl, rfl, rfl, rfl, rfl, rfl, rfl, rfl,
    rfl, rfl, rfl, rfl, rfl, rfl, rfl, rfl⟩
  rw [serializeReport_default, List.length_replicate]
